import Mathlib

/-! Validation service: rule evaluation and orchestration.

A shallow embedding of `internal/models/validation.go`,
`internal/services/validation.go` and the lookup endpoint of
`internal/handlers/validation.go`, followed by theorems about the embedded
functions.

Conventions of the embedding:

* Go `float64` is the type `Float64` of its three bit fields; `Float64.gt` is
  the IEEE-754 comparison that Go's `>` performs.
* A Go `interface{}` value is a `Value`, tagged with its dynamic type, so that
  a type assertion `v.(T)` is a match on the tag.
* A `map[string]interface{}` is a function `String → Option Value`; a lookup of
  an absent key gives `none` (the nil interface in Go).
* What the program takes from the Go runtime and standard library (the clock
  and the `Sprintf` float verb) is a `Runtime` record passed explicitly.
  Logging calls have no effect on any returned value and are left out.
* The field `Type` of the Go structs is `Typ` here (`Type` is reserved).
-/

namespace ValidationSvc

/-! ## Go primitives -/

/-- An IEEE-754 binary64 value (Go `float64`), given by its bit fields. -/
structure Float64 where
  sign : Bool
  exponent : Fin 2048
  mantissa : Fin (2 ^ 52)
  deriving DecidableEq

namespace Float64

/-- The value with the given 64-bit pattern (`math.Float64frombits`). -/
def ofBits (b : Nat) : Float64 where
  sign := decide (b / 2 ^ 63 % 2 = 1)
  exponent := ⟨b / 2 ^ 52 % 2048, Nat.mod_lt _ (by decide)⟩
  mantissa := ⟨b % 2 ^ 52, Nat.mod_lt _ (by decide)⟩

/-- Not-a-number: all exponent bits set and a non-zero mantissa. -/
def isNaN (x : Float64) : Bool :=
  decide (x.exponent.val = 2047) && decide (x.mantissa.val ≠ 0)

/-- Position of a non-NaN value in the numeric order: the magnitude bits read
as an integer, negated when the sign bit is set (so `+0` and `-0` coincide). -/
def key (x : Float64) : Int :=
  let magnitude : Int := (x.exponent.val * 2 ^ 52 + x.mantissa.val : Nat)
  if x.sign then -magnitude else magnitude

/-- Go `x > y` on `float64`: false when either side is NaN. -/
def gt (x y : Float64) : Bool :=
  !x.isNaN && !y.isNaN && decide (y.key < x.key)

end Float64

/-- Dynamic values held by a Go `interface{}`, tagged with their dynamic type. -/
inductive Value where
  | null
  | bool (b : Bool)
  | int (i : Int)
  | float64 (f : Float64)
  | string (s : String)
  | strings (xs : List String)
  | values (xs : List Value)

/-- Go `map[string]interface{}` as its lookup function. -/
abbrev GoMap := String → Option Value

/-- Go `v, ok := m[k].(float64)`. -/
def GoMap.assertFloat64 (m : GoMap) (k : String) : Option Float64 :=
  match m k with
  | some (Value.float64 f) => some f
  | _ => none

/-- Go `v, ok := m[k].([]string)`. -/
def GoMap.assertStrings (m : GoMap) (k : String) : Option (List String) :=
  match m k with
  | some (Value.strings xs) => some xs
  | _ => none

/-- A `time.Time`, as an instant on an integer scale whose origin `0` is the
zero value `time.Time{}`. -/
abbrev Time := Int

/-- A `time.Duration`, in nanoseconds. -/
abbrev Duration := Int

/-- Go `time.Millisecond`. -/
def Millisecond : Duration := 1000000

/-- A Go `error` value, by its message. -/
abbrev GoError := String

/-- What the program takes from the Go runtime and standard library. -/
structure Runtime where
  /-- The value of the `n`-th call of `time.Now()` made while serving one call. -/
  now : Nat → Time
  /-- The method `t.UnixNano()`. -/
  unixNano : Time → Int
  /-- The method `t.Sub(u)`; `time.Since(u)` is `time.Now().Sub(u)`. -/
  sub : Time → Time → Duration
  /-- The text `fmt.Sprintf("%.2f", x)`. -/
  sprintf2f : Float64 → String

/-! ## `internal/models/validation.go` -/

structure Counterparty where
  ID : String
  Name : String
  Typ : String

structure ValidationRequest where
  TransactionID : String
  Typ : String
  Amount : Float64
  Currency : String
  Counterparty : Counterparty
  Metadata : GoMap
  Timestamp : Time

abbrev ValidationStatus := String

def ValidationStatusPending : ValidationStatus := "PENDING"
def ValidationStatusPassed : ValidationStatus := "PASSED"
def ValidationStatusFailed : ValidationStatus := "FAILED"
def ValidationStatusError : ValidationStatus := "ERROR"

structure RuleResult where
  RuleID : String
  RuleName : String
  Status : String
  Message : String
  ProcessedAt : Time
  deriving DecidableEq

structure ValidationResult where
  ID : String
  TransactionID : String
  Status : ValidationStatus
  Rules : List RuleResult
  ErrorCode : String
  ErrorMessage : String
  ProcessedAt : Time
  ProcessingTime : Duration
  Metadata : GoMap

structure ValidationRule where
  ID : String
  Name : String
  Description : String
  Typ : String
  Enabled : Bool
  Priority : Int
  Config : GoMap
  CreatedAt : Time
  UpdatedAt : Time

/-! ## `internal/services/validation.go` -/

structure ValidationService where
  rules : List ValidationRule

/-- The function `validateAmountLimit`. -/
def validateAmountLimit (rt : Runtime) (rule : ValidationRule)
    (request : ValidationRequest) : RuleResult :=
  let result : RuleResult :=
    { RuleID := rule.ID, RuleName := rule.Name, Status := "PASSED",
      Message := "", ProcessedAt := 0 }
  let maxAmount : Float64 :=
    match rule.Config.assertFloat64 "max_amount" with
    | some limit => limit
    | none => Float64.ofBits 0x412E848000000000
  if request.Amount.gt maxAmount then
    { result with
      Status := "FAILED"
      Message := "Amount " ++ rt.sprintf2f request.Amount
        ++ " exceeds maximum limit of " ++ rt.sprintf2f maxAmount }
  else
    { result with
      Message := "Amount " ++ rt.sprintf2f request.Amount
        ++ " is within limit of " ++ rt.sprintf2f maxAmount }

/-- The loop of `validateCurrency` that looks for the request's currency,
leaving at the first match. -/
def currencyAllowed (requestCurrency : String) : List String → Bool
  | [] => false
  | currency :: rest =>
    if requestCurrency = currency then true else currencyAllowed requestCurrency rest

/-- The function `validateCurrency`. -/
def validateCurrency (rule : ValidationRule) (request : ValidationRequest) : RuleResult :=
  let result : RuleResult :=
    { RuleID := rule.ID, RuleName := rule.Name, Status := "PASSED",
      Message := "", ProcessedAt := 0 }
  let allowedCurrencies : List String :=
    match rule.Config.assertStrings "allowed_currencies" with
    | some currencies => currencies
    | none => ["USD", "EUR", "GBP", "JPY"]
  if !currencyAllowed request.Currency allowedCurrencies then
    { result with
      Status := "FAILED"
      Message := "Currency " ++ request.Currency ++ " is not allowed" }
  else
    { result with Message := "Currency " ++ request.Currency ++ " is allowed" }

/-- The function `validateCounterparty`. -/
def validateCounterparty (rule : ValidationRule) (request : ValidationRequest) : RuleResult :=
  let result : RuleResult :=
    { RuleID := rule.ID, RuleName := rule.Name, Status := "PASSED",
      Message := "", ProcessedAt := 0 }
  if request.Counterparty.ID = "" then
    { result with Status := "FAILED", Message := "Counterparty ID is required" }
  else if request.Counterparty.Name = "" then
    { result with Status := "FAILED", Message := "Counterparty name is required" }
  else
    { result with Message := "Counterparty information is valid" }

/-- The method `applyRule`; `tick` counts the calls of `time.Now()` made before
this one. -/
def applyRule (rt : Runtime) (tick : Nat) (rule : ValidationRule)
    (request : ValidationRequest) : RuleResult :=
  let startTime := rt.now tick
  let result : RuleResult :=
    { RuleID := rule.ID, RuleName := rule.Name, Status := "PASSED",
      Message := "", ProcessedAt := startTime }
  let result :=
    if rule.Typ = "AMOUNT_LIMIT" then validateAmountLimit rt rule request
    else if rule.Typ = "CURRENCY_CHECK" then validateCurrency rule request
    else if rule.Typ = "COUNTERPARTY_CHECK" then validateCounterparty rule request
    else { result with Status := "SKIPPED", Message := "Unknown rule type: " ++ rule.Typ }
  { result with ProcessedAt := startTime }

/-- The variables the rule loop of `ValidateTransaction` updates. -/
structure LoopState where
  Rules : List RuleResult
  overallStatus : ValidationStatus
  tick : Nat

/-- One iteration of the rule loop of `ValidateTransaction`. -/
def loopBody (rt : Runtime) (request : ValidationRequest) (st : LoopState)
    (rule : ValidationRule) : LoopState :=
  if !rule.Enabled then st
  else
    let ruleResult := applyRule rt st.tick rule request
    { Rules := st.Rules ++ [ruleResult]
      overallStatus :=
        if ruleResult.Status = "FAILED" then ValidationStatusFailed else st.overallStatus
      tick := st.tick + 1 }

/-- The method `ValidateTransaction`. -/
def ValidationService.ValidateTransaction (rt : Runtime) (s : ValidationService)
    (request : ValidationRequest) : Except GoError ValidationResult :=
  let startTime := rt.now 0
  let result : ValidationResult :=
    { ID := "val-" ++ toString (rt.unixNano (rt.now 1))
      TransactionID := request.TransactionID
      Status := ValidationStatusPending
      Rules := []
      ErrorCode := ""
      ErrorMessage := ""
      ProcessedAt := startTime
      ProcessingTime := 0
      Metadata := fun _ => none }
  let loopStart : LoopState :=
    { Rules := result.Rules, overallStatus := ValidationStatusPassed, tick := 2 }
  let st := s.rules.foldl (loopBody rt request) loopStart
  let result : ValidationResult :=
    { result with
      Rules := st.Rules
      Status := st.overallStatus
      ProcessingTime := rt.sub (rt.now st.tick) startTime }
  let result : ValidationResult :=
    if st.overallStatus = ValidationStatusFailed then
      { result with
        ErrorCode := "VALIDATION_FAILED"
        ErrorMessage := "One or more validation rules failed" }
    else result
  Except.ok result

/-- The method `GetValidationResult` of the service. -/
def ValidationService.GetValidationResult (rt : Runtime) (_s : ValidationService)
    (validationID : String) : Except GoError ValidationResult :=
  Except.ok
    { ID := validationID
      TransactionID := "mock-transaction-id"
      Status := ValidationStatusPassed
      ProcessedAt := rt.now 0
      ProcessingTime := 50 * Millisecond
      Rules :=
        [{ RuleID := "amount-limit"
           RuleName := "Amount Limit Check"
           Status := "PASSED"
           Message := "Amount within acceptable limits"
           ProcessedAt := rt.now 1 }]
      ErrorCode := ""
      ErrorMessage := ""
      Metadata := fun _ => none }

/-- The function `getDefaultValidationRules`. -/
def getDefaultValidationRules (rt : Runtime) : List ValidationRule :=
  [ { ID := "amount-limit"
      Name := "Amount Limit Check"
      Description := "Validates transaction amount against maximum limits"
      Typ := "AMOUNT_LIMIT"
      Enabled := true
      Priority := 1
      Config := fun k =>
        if k = "max_amount" then some (Value.float64 (Float64.ofBits 0x412E848000000000))
        else none
      CreatedAt := rt.now 0
      UpdatedAt := rt.now 1 },
    { ID := "currency-check"
      Name := "Currency Validation"
      Description := "Validates transaction currency against allowed currencies"
      Typ := "CURRENCY_CHECK"
      Enabled := true
      Priority := 2
      Config := fun k =>
        if k = "allowed_currencies" then some (Value.strings ["USD", "EUR", "GBP", "JPY"])
        else none
      CreatedAt := rt.now 2
      UpdatedAt := rt.now 3 },
    { ID := "counterparty-check"
      Name := "Counterparty Validation"
      Description := "Validates counterparty information completeness"
      Typ := "COUNTERPARTY_CHECK"
      Enabled := true
      Priority := 3
      Config := fun _ => none
      CreatedAt := rt.now 4
      UpdatedAt := rt.now 5 } ]

/-- The constructor `NewValidationService`. -/
def NewValidationService (rt : Runtime) : ValidationService :=
  { rules := getDefaultValidationRules rt }

/-! ## `internal/handlers/validation.go`: the lookup endpoint -/

structure ValidationHandler where
  validationService : ValidationService

/-- The constants `http.StatusOK`, `http.StatusBadRequest` and
`http.StatusNotFound`. -/
def StatusOK : Nat := 200
def StatusBadRequest : Nat := 400
def StatusNotFound : Nat := 404

/-- The JSON body a handler writes with `c.JSON`: either a `gin.H` carrying an
`error` text and possibly `details`, or a validation result. -/
inductive ResponseBody where
  | failure (error : String) (details : Option String)
  | result (r : ValidationResult)

/-- The answer a handler writes with `c.JSON`: status code and body. -/
structure Response where
  code : Nat
  body : ResponseBody

/-- The handler method `GetValidationResult`; `idParam` is the value of
`c.Param("id")`. -/
def ValidationHandler.GetValidationResult (rt : Runtime) (h : ValidationHandler)
    (idParam : String) : Response :=
  let validationID := idParam
  if validationID = "" then
    { code := StatusBadRequest
      body := ResponseBody.failure "Validation ID is required" none }
  else
    match h.validationService.GetValidationResult rt validationID with
    | Except.error err =>
      { code := StatusNotFound
        body := ResponseBody.failure "Validation result not found" (some err) }
    | Except.ok result =>
      { code := StatusOK, body := ResponseBody.result result }

/-! ## Auxiliary definitions used to state the properties -/

/-- The rule types that `applyRule` dispatches on. -/
def knownType (t : String) : Bool :=
  decide (t = "AMOUNT_LIMIT") || decide (t = "CURRENCY_CHECK")
    || decide (t = "COUNTERPARTY_CHECK")

/-- The rule with the entry `k` of its config set to `v`. -/
def ValidationRule.setConfig (rule : ValidationRule) (k : String) (v : Value) :
    ValidationRule :=
  { rule with Config := fun k' => if k' = k then some v else rule.Config k' }

/-- The catalog without its rules of a type `applyRule` does not know. -/
def ValidationService.dropUnknown (s : ValidationService) : ValidationService :=
  { rules := s.rules.filter fun r => knownType r.Typ }

/-- A rule result with its timestamp cleared: what is left when timestamps are
ignored. -/
def RuleResult.clearTime (r : RuleResult) : RuleResult :=
  { r with ProcessedAt := 0 }

/-- The results the rule loop appends when it starts at clock tick `t`: one per
enabled rule, each evaluated at the next tick. -/
def loopResults (rt : Runtime) (request : ValidationRequest) :
    Nat → List ValidationRule → List RuleResult
  | _, [] => []
  | t, rule :: rest =>
    if rule.Enabled then
      applyRule rt t rule request :: loopResults rt request (t + 1) rest
    else loopResults rt request t rest

/-- Whether some rule result of the list has status `FAILED`. -/
def anyFailed (rs : List RuleResult) : Bool :=
  rs.any fun r => decide (r.Status = "FAILED")

/-- A runtime for evaluating the definitions on concrete inputs. -/
def sampleRuntime : Runtime where
  now := fun n => (n : Int)
  unixNano := fun t => t
  sub := fun t u => t - u
  sprintf2f := fun _ => "#.##"

/-- A request with the given amount, currency and counterparty identity. -/
def sampleRequest (amount : Float64) (currency cpID cpName : String) : ValidationRequest where
  TransactionID := "test-txn-123"
  Typ := "PAYMENT"
  Amount := amount
  Currency := currency
  Counterparty := { ID := cpID, Name := cpName, Typ := "BUSINESS" }
  Metadata := fun _ => none
  Timestamp := 0

/-- An enabled rule of the given type and configuration. -/
def sampleRule (typ : String) (config : GoMap) : ValidationRule where
  ID := "rule-1"
  Name := "Rule One"
  Description := ""
  Typ := typ
  Enabled := true
  Priority := 1
  Config := config
  CreatedAt := 0
  UpdatedAt := 0

/-- The `float64` 1000.0. -/
def f1000 : Float64 := Float64.ofBits 0x408F400000000000

/-- The `float64` 1000000.0. -/
def f1e6 : Float64 := Float64.ofBits 0x412E848000000000

/-- The `float64` 2000000.0. -/
def f2e6 : Float64 := Float64.ofBits 0x413E848000000000

/-- The `float64` 500.0. -/
def f500 : Float64 := Float64.ofBits 0x407F400000000000

/-- Whether two outcomes of `ValidateTransaction` are both results and agree on
the overall status, the error code, the error message and the rule results
with their timestamps cleared. -/
def sameVerdict (o1 o2 : Except GoError ValidationResult) : Bool :=
  match o1, o2 with
  | Except.ok r1, Except.ok r2 =>
    decide (r1.Status = r2.Status) && decide (r1.ErrorCode = r2.ErrorCode)
      && decide (r1.ErrorMessage = r2.ErrorMessage)
      && decide (r1.Rules.map RuleResult.clearTime = r2.Rules.map RuleResult.clearTime)
  | _, _ => false

/-- A runtime whose clock runs later than that of `sampleRuntime`. -/
def laterRuntime : Runtime where
  now := fun n => (n : Int) + 1000
  unixNano := fun t => t
  sub := fun t u => t - u
  sprintf2f := fun _ => "#.##"

/-- The `float64` -1.0. -/
def fNegOne : Float64 := Float64.ofBits 0xBFF0000000000000

/-! ## Lemmas on the rule evaluator -/

theorem currencyAllowed_iff (c : String) (xs : List String) :
    currencyAllowed c xs = true ↔ c ∈ xs := by
  induction xs with
  | nil => simp [currencyAllowed]
  | cons x rest ih =>
    by_cases h : c = x
    · simp [currencyAllowed, h]
    · simp [currencyAllowed, h, ih]

theorem applyRule_tick (rt : Runtime) (t : Nat) (rule : ValidationRule)
    (request : ValidationRequest) :
    applyRule rt t rule request
      = { applyRule rt 0 rule request with ProcessedAt := rt.now t } := by
  simp only [applyRule]
  split_ifs <;> rfl

theorem applyRule_clearTime (rt : Runtime) (t u : Nat) (rule : ValidationRule)
    (request : ValidationRequest) :
    (applyRule rt t rule request).clearTime = (applyRule rt u rule request).clearTime := by
  simp only [applyRule, RuleResult.clearTime]
  split_ifs <;> rfl

theorem applyRule_Status (rt : Runtime) (t u : Nat) (rule : ValidationRule)
    (request : ValidationRequest) :
    (applyRule rt t rule request).Status = (applyRule rt u rule request).Status := by
  simp only [applyRule]
  split_ifs <;> rfl

theorem applyRule_RuleID (rt : Runtime) (t : Nat) (rule : ValidationRule)
    (request : ValidationRequest) :
    (applyRule rt t rule request).RuleID = rule.ID
      ∧ (applyRule rt t rule request).RuleName = rule.Name := by
  simp only [applyRule, validateAmountLimit, validateCurrency, validateCounterparty]
  split_ifs <;> simp

/-! ## Lemmas on the rule loop -/

theorem foldl_loopBody (rt : Runtime) (request : ValidationRequest)
    (rules : List ValidationRule) (st : LoopState) :
    rules.foldl (loopBody rt request) st
      = { Rules := st.Rules ++ loopResults rt request st.tick rules
          overallStatus :=
            if anyFailed (loopResults rt request st.tick rules) = true
            then ValidationStatusFailed else st.overallStatus
          tick := st.tick + (loopResults rt request st.tick rules).length } := by
  induction rules generalizing st with
  | nil => simp [loopResults, anyFailed]
  | cons rule rest ih =>
    rw [List.foldl_cons, ih]
    by_cases hen : rule.Enabled = true
    · by_cases hf : (applyRule rt st.tick rule request).Status = "FAILED"
      · simp [loopBody, loopResults, anyFailed, hen, hf]
        omega
      · simp [loopBody, loopResults, anyFailed, hen, hf]
        omega
    · simp [loopBody, loopResults, hen]

theorem loopResults_clearTime (rt : Runtime) (request : ValidationRequest) (u : Nat)
    (rules : List ValidationRule) (t : Nat) :
    (loopResults rt request t rules).map RuleResult.clearTime
      = (rules.filter fun r => r.Enabled).map
          fun r => (applyRule rt u r request).clearTime := by
  induction rules generalizing t with
  | nil => simp [loopResults]
  | cons rule rest ih =>
    by_cases hen : rule.Enabled = true
    · simp [loopResults, hen, ih, applyRule_clearTime rt t u]
    · simp [loopResults, hen, ih]

theorem anyFailed_iff (rs : List RuleResult) :
    anyFailed rs = true ↔ ∃ r ∈ rs, r.Status = "FAILED" := by
  simp [anyFailed]

theorem anyFailed_loopResults (rt : Runtime) (request : ValidationRequest) (u : Nat)
    (rules : List ValidationRule) (t : Nat) :
    anyFailed (loopResults rt request t rules)
      = rules.any fun r =>
          r.Enabled && decide ((applyRule rt u r request).Status = "FAILED") := by
  induction rules generalizing t with
  | nil => simp [loopResults, anyFailed]
  | cons rule rest ih =>
    have ih2 := ih
    simp only [anyFailed] at ih2
    by_cases hen : rule.Enabled = true
    · simp [loopResults, anyFailed, hen, ih2, applyRule_Status rt t u]
    · simp [loopResults, anyFailed, hen, ih2]

/-- The result of `ValidateTransaction`, field by field. -/
theorem validateTransaction_eq (rt : Runtime) (s : ValidationService)
    (request : ValidationRequest) :
    ∃ res, s.ValidateTransaction rt request = Except.ok res
      ∧ res.Rules = loopResults rt request 2 s.rules
      ∧ res.Status = (if anyFailed (loopResults rt request 2 s.rules) = true
          then ValidationStatusFailed else ValidationStatusPassed)
      ∧ res.ErrorCode = (if anyFailed (loopResults rt request 2 s.rules) = true
          then "VALIDATION_FAILED" else "")
      ∧ res.ErrorMessage = (if anyFailed (loopResults rt request 2 s.rules) = true
          then "One or more validation rules failed" else "")
      ∧ res.TransactionID = request.TransactionID := by
  refine ⟨_, rfl, ?_⟩
  simp only [foldl_loopBody]
  by_cases h : anyFailed (loopResults rt request 2 s.rules) = true
  · simp [h]
  · simp [h, ValidationStatusPassed, ValidationStatusFailed]

theorem Float64.gt_self (x : Float64) : x.gt x = false := by
  simp [Float64.gt]

/-! ## Lemmas on the dispatch of `applyRule` -/

theorem applyRule_unknown (rt : Runtime) (t : Nat) (rule : ValidationRule)
    (request : ValidationRequest) (h1 : rule.Typ ≠ "AMOUNT_LIMIT")
    (h2 : rule.Typ ≠ "CURRENCY_CHECK") (h3 : rule.Typ ≠ "COUNTERPARTY_CHECK") :
    applyRule rt t rule request
      = { RuleID := rule.ID, RuleName := rule.Name, Status := "SKIPPED",
          Message := "Unknown rule type: " ++ rule.Typ, ProcessedAt := rt.now t } := by
  simp [applyRule, h1, h2, h3]

theorem applyRule_amount_status (rt : Runtime) (t : Nat) (rule : ValidationRule)
    (request : ValidationRequest) (m : Float64) (htype : rule.Typ = "AMOUNT_LIMIT")
    (hmax : rule.Config.assertFloat64 "max_amount" = some m) :
    (applyRule rt t rule request).Status
      = if request.Amount.gt m = true then "FAILED" else "PASSED" := by
  by_cases h : request.Amount.gt m = true <;>
    simp [applyRule, htype, validateAmountLimit, hmax, h]

theorem applyRule_currency_status (rt : Runtime) (t : Nat) (rule : ValidationRule)
    (request : ValidationRequest) (xs : List String) (htype : rule.Typ = "CURRENCY_CHECK")
    (hallowed : rule.Config.assertStrings "allowed_currencies" = some xs) :
    (applyRule rt t rule request).Status
      = if request.Currency ∈ xs then "PASSED" else "FAILED" := by
  have hiff := currencyAllowed_iff request.Currency xs
  by_cases h : currencyAllowed request.Currency xs = true
  · have hin := hiff.1 h
    simp [applyRule, htype, validateCurrency, hallowed, h, hin]
  · have hin : request.Currency ∉ xs := fun hc => h (hiff.2 hc)
    simp [applyRule, htype, validateCurrency, hallowed, h, hin]

theorem applyRule_counterparty_status (rt : Runtime) (t : Nat) (rule : ValidationRule)
    (request : ValidationRequest) (htype : rule.Typ = "COUNTERPARTY_CHECK") :
    (applyRule rt t rule request).Status
      = if request.Counterparty.ID = "" ∨ request.Counterparty.Name = ""
        then "FAILED" else "PASSED" := by
  by_cases hid : request.Counterparty.ID = ""
  · simp [applyRule, htype, validateCounterparty, hid]
  · by_cases hname : request.Counterparty.Name = "" <;>
      simp [applyRule, htype, validateCounterparty, hid, hname]

theorem anyFailed_dropUnknown (rt : Runtime) (request : ValidationRequest)
    (s : ValidationService) (t : Nat) :
    anyFailed (loopResults rt request t s.dropUnknown.rules)
      = anyFailed (loopResults rt request t s.rules) := by
  rw [anyFailed_loopResults rt request 0, anyFailed_loopResults rt request 0,
    ValidationService.dropUnknown, List.any_filter]
  congr 1
  funext r
  by_cases hk : knownType r.Typ = true
  · simp [hk]
  · have hk2 := hk
    simp only [knownType, Bool.or_eq_true, decide_eq_true_eq, not_or] at hk2
    rw [applyRule_unknown rt 0 r request hk2.1.1 hk2.1.2 hk2.2]
    simp [hk]

theorem getDefaultValidationRules_eq (rt0 : Runtime) :
    ∃ a b c : ValidationRule, getDefaultValidationRules rt0 = [a, b, c]
      ∧ (a.ID = "amount-limit" ∧ a.Typ = "AMOUNT_LIMIT" ∧ a.Enabled = true
          ∧ a.Config.assertFloat64 "max_amount" = some f1e6)
      ∧ (b.ID = "currency-check" ∧ b.Typ = "CURRENCY_CHECK" ∧ b.Enabled = true
          ∧ b.Config.assertStrings "allowed_currencies" = some ["USD", "EUR", "GBP", "JPY"])
      ∧ (c.ID = "counterparty-check" ∧ c.Typ = "COUNTERPARTY_CHECK" ∧ c.Enabled = true) :=
  ⟨_, _, _, rfl, ⟨rfl, rfl, rfl, rfl⟩, ⟨rfl, rfl, rfl, rfl⟩, ⟨rfl, rfl, rfl⟩⟩

/-! ## Lemmas on what the verdict depends on -/

theorem applyRule_clearTime_congr (rt1 rt2 : Runtime) (t u : Nat) (rule : ValidationRule)
    (req1 req2 : ValidationRequest) (hfmt : rt1.sprintf2f = rt2.sprintf2f)
    (hamount : req1.Amount = req2.Amount) (hcurrency : req1.Currency = req2.Currency)
    (hid : req1.Counterparty.ID = req2.Counterparty.ID)
    (hname : req1.Counterparty.Name = req2.Counterparty.Name) :
    (applyRule rt1 t rule req1).clearTime = (applyRule rt2 u rule req2).clearTime := by
  simp only [applyRule, RuleResult.clearTime, validateAmountLimit, validateCurrency,
    validateCounterparty, hfmt, hamount, hcurrency, hid, hname]
  split_ifs <;> rfl

theorem loopResults_clearTime_congr (rt1 rt2 : Runtime) (req1 req2 : ValidationRequest)
    (hfmt : rt1.sprintf2f = rt2.sprintf2f)
    (hamount : req1.Amount = req2.Amount) (hcurrency : req1.Currency = req2.Currency)
    (hid : req1.Counterparty.ID = req2.Counterparty.ID)
    (hname : req1.Counterparty.Name = req2.Counterparty.Name)
    (rules : List ValidationRule) (t u : Nat) :
    (loopResults rt1 req1 t rules).map RuleResult.clearTime
      = (loopResults rt2 req2 u rules).map RuleResult.clearTime := by
  induction rules generalizing t u with
  | nil => simp [loopResults]
  | cons rule rest ih =>
    by_cases hen : rule.Enabled = true
    · simp [loopResults, hen, ih (t + 1) (u + 1),
        applyRule_clearTime_congr rt1 rt2 t u rule req1 req2 hfmt hamount hcurrency hid hname]
    · simp [loopResults, hen, ih t u]

theorem loopResults_filter (rt : Runtime) (request : ValidationRequest)
    (rules : List ValidationRule) (t : Nat) :
    loopResults rt request t (rules.filter fun r => r.Enabled)
      = loopResults rt request t rules := by
  induction rules generalizing t with
  | nil => rfl
  | cons rule rest ih =>
    by_cases hen : rule.Enabled = true
    · simp [loopResults, List.filter_cons, hen, ih]
    · simp [loopResults, List.filter_cons, hen, ih]

theorem anyFailed_map_clearTime (rs : List RuleResult) :
    anyFailed (rs.map RuleResult.clearTime) = anyFailed rs := by
  induction rs with
  | nil => rfl
  | cons r rest ih =>
    simp only [anyFailed, List.map_cons, List.any_cons] at ih ⊢
    rw [ih]
    rfl

theorem anyFailed_append (rs1 rs2 : List RuleResult) :
    anyFailed (rs1 ++ rs2) = (anyFailed rs1 || anyFailed rs2) := by
  simp [anyFailed]

theorem loopResults_append (rt : Runtime) (request : ValidationRequest)
    (c1 c2 : List ValidationRule) (t : Nat) :
    loopResults rt request t (c1 ++ c2)
      = loopResults rt request t c1
        ++ loopResults rt request (t + (loopResults rt request t c1).length) c2 := by
  induction c1 generalizing t with
  | nil => simp [loopResults]
  | cons rule rest ih =>
    by_cases hen : rule.Enabled = true
    · simp [loopResults, hen, ih (t + 1), Nat.add_assoc, Nat.add_comm 1]
    · simp [loopResults, hen, ih t]

theorem anyFailed_loopResults_tick (rt : Runtime) (request : ValidationRequest)
    (rules : List ValidationRule) (t u : Nat) :
    anyFailed (loopResults rt request t rules)
      = anyFailed (loopResults rt request u rules) := by
  rw [anyFailed_loopResults rt request 0 rules t, anyFailed_loopResults rt request 0 rules u]

/-- Two calls whose rule loops give the same results up to timestamps give
the same verdict. -/
theorem sameVerdict_of_loopResults (rt1 rt2 : Runtime) (s1 s2 : ValidationService)
    (req1 req2 : ValidationRequest)
    (h : (loopResults rt1 req1 2 s1.rules).map RuleResult.clearTime
      = (loopResults rt2 req2 2 s2.rules).map RuleResult.clearTime) :
    sameVerdict (s1.ValidateTransaction rt1 req1) (s2.ValidateTransaction rt2 req2)
      = true := by
  obtain ⟨res1, hres1, hrules1, hstatus1, hcode1, hmsg1, -⟩ :=
    validateTransaction_eq rt1 s1 req1
  obtain ⟨res2, hres2, hrules2, hstatus2, hcode2, hmsg2, -⟩ :=
    validateTransaction_eq rt2 s2 req2
  have hany : anyFailed (loopResults rt1 req1 2 s1.rules)
      = anyFailed (loopResults rt2 req2 2 s2.rules) := by
    rw [← anyFailed_map_clearTime, h, anyFailed_map_clearTime]
  rw [hres1, hres2]
  simp only [sameVerdict, Bool.and_eq_true, decide_eq_true_eq]
  rw [hstatus1, hstatus2, hcode1, hcode2, hmsg1, hmsg2, hrules1, hrules2, hany]
  exact ⟨⟨⟨rfl, rfl⟩, rfl⟩, h⟩

/-! ## Properties of the orchestrator and of the rule evaluator -/

/-- C1: for every rule catalog and every request, `ValidateTransaction` returns
a result whose `Status` is `FAILED` if and only if some entry of its `Rules`
has status `"FAILED"`, and is `PASSED` if and only if no entry has; it is never
`PENDING` and never `ERROR`. -/
theorem validateTransaction_status_iff_rule_failed (rt : Runtime) (s : ValidationService)
    (request : ValidationRequest) :
    ∃ res, s.ValidateTransaction rt request = Except.ok res
      ∧ (res.Status = ValidationStatusFailed ↔ ∃ r ∈ res.Rules, r.Status = "FAILED")
      ∧ (res.Status = ValidationStatusPassed ↔ ¬ ∃ r ∈ res.Rules, r.Status = "FAILED")
      ∧ res.Status ≠ ValidationStatusPending
      ∧ res.Status ≠ ValidationStatusError := by
  obtain ⟨res, hres, hrules, hstatus, -⟩ := validateTransaction_eq rt s request
  refine ⟨res, hres, ?_⟩
  rw [hstatus, hrules, ← anyFailed_iff]
  by_cases h : anyFailed (loopResults rt request 2 s.rules) = true
  · simp only [h, if_true]
    decide
  · simp only [h, if_false]
    decide

/-- C2: for every rule catalog and every request, the `Rules` of the result of
`ValidateTransaction` are, timestamps cleared, the enabled rules of the catalog
in catalog order with `applyRule` applied to each (at whatever clock tick `t`);
there are as many as enabled rules, and the `i`-th carries the id and the name
of the `i`-th enabled rule. Nothing in the right-hand side depends on the
outcome of an earlier rule. -/
theorem validateTransaction_rules_eq_enabled_map (rt : Runtime) (s : ValidationService)
    (request : ValidationRequest) (t : Nat) :
    ∃ res, s.ValidateTransaction rt request = Except.ok res
      ∧ res.Rules.map RuleResult.clearTime
          = (s.rules.filter fun r => r.Enabled).map
              (fun r => (applyRule rt t r request).clearTime)
      ∧ res.Rules.length = (s.rules.filter fun r => r.Enabled).length
      ∧ ∀ i : Nat,
          res.Rules[i]?.map (fun r => (r.RuleID, r.RuleName))
            = (s.rules.filter fun r => r.Enabled)[i]?.map (fun r => (r.ID, r.Name)) := by
  obtain ⟨res, hres, hrules, -⟩ := validateTransaction_eq rt s request
  have hmap := loopResults_clearTime rt request t s.rules 2
  rw [← hrules] at hmap
  refine ⟨res, hres, hmap, ?_, ?_⟩
  · have := congrArg List.length hmap
    simpa using this
  · intro i
    have h1 : res.Rules[i]?.map (fun r => (r.RuleID, r.RuleName))
        = (res.Rules.map RuleResult.clearTime)[i]?.map
            fun r => (r.RuleID, r.RuleName) := by
      rw [List.getElem?_map, Option.map_map]
      rfl
    rw [h1, hmap, List.getElem?_map, Option.map_map]
    congr 1
    funext r
    simp [RuleResult.clearTime, (applyRule_RuleID rt t r request).1,
      (applyRule_RuleID rt t r request).2]

/-- C3, as stated, fails: an `AMOUNT_LIMIT` rule whose config holds the Go
`int` 500 under `max_amount` holds a numeric limit, and the amount 1000.0 is
greater than 500.0, yet `applyRule` gives status `PASSED` and not `FAILED`:
the type assertion to `float64` does not read an `int`, and the limit used is
the default 1000000.0. -/
theorem applyRule_amountLimit_int_limit_ignored :
    (sampleRule "AMOUNT_LIMIT" fun k =>
        if k = "max_amount" then some (Value.int 500) else none).Config "max_amount"
        = some (Value.int 500)
      ∧ f1000.gt f500 = true
      ∧ (applyRule sampleRuntime 0
          (sampleRule "AMOUNT_LIMIT" fun k =>
            if k = "max_amount" then some (Value.int 500) else none)
          (sampleRequest f1000 "USD" "cp-123" "Test Corp")).Status = "PASSED"
      ∧ (applyRule sampleRuntime 0
          (sampleRule "AMOUNT_LIMIT" fun k =>
            if k = "max_amount" then some (Value.int 500) else none)
          (sampleRequest f1000 "USD" "cp-123" "Test Corp")).Status ≠ "FAILED"
      ∧ (applyRule sampleRuntime 0
          (sampleRule "AMOUNT_LIMIT" fun k =>
            if k = "max_amount" then some (Value.int 500) else none)
          (sampleRequest f1000 "USD" "cp-123" "Test Corp")).Message
          = "Amount #.## is within limit of #.##" :=
  ⟨rfl, by decide, by decide, by decide, by decide⟩

/-- C3, amended: for an `AMOUNT_LIMIT` rule whose config holds the `float64`
`m` under `max_amount`, `applyRule` gives status `FAILED` if and only if
`request.Amount > m` and `PASSED` if and only if not; a request whose amount is
`m` itself is `PASSED`. -/
theorem applyRule_amountLimit_iff (rt : Runtime) (t : Nat) (rule : ValidationRule)
    (request : ValidationRequest) (m : Float64)
    (htype : rule.Typ = "AMOUNT_LIMIT")
    (hconfig : rule.Config "max_amount" = some (Value.float64 m)) :
    ((applyRule rt t rule request).Status = "FAILED" ↔ request.Amount.gt m = true)
      ∧ ((applyRule rt t rule request).Status = "PASSED" ↔ request.Amount.gt m = false)
      ∧ (applyRule rt t rule { request with Amount := m }).Status = "PASSED" := by
  have hmax : rule.Config.assertFloat64 "max_amount" = some m := by
    simp [GoMap.assertFloat64, hconfig]
  refine ⟨?_, ?_, ?_⟩
  · by_cases h : request.Amount.gt m = true <;>
      simp [applyRule, htype, validateAmountLimit, hmax, h]
  · by_cases h : request.Amount.gt m = true <;>
      simp [applyRule, htype, validateAmountLimit, hmax, h]
  · simp [applyRule, htype, validateAmountLimit, hmax, Float64.gt_self]

/-- A rule with limit 1000000.0 fails the amount 2000000.0 and passes the
amount 1000000.0. -/
theorem applyRule_amountLimit_iff_witness :
    (applyRule sampleRuntime 0
        (sampleRule "AMOUNT_LIMIT" fun k =>
          if k = "max_amount" then some (Value.float64 f1e6) else none)
        (sampleRequest f2e6 "USD" "cp-456" "Test Corp")).Status = "FAILED"
      ∧ (applyRule sampleRuntime 0
        (sampleRule "AMOUNT_LIMIT" fun k =>
          if k = "max_amount" then some (Value.float64 f1e6) else none)
        { sampleRequest f2e6 "USD" "cp-456" "Test Corp" with Amount := f1e6 }).Status
          = "PASSED" :=
  have h := applyRule_amountLimit_iff sampleRuntime 0
    (sampleRule "AMOUNT_LIMIT" fun k =>
      if k = "max_amount" then some (Value.float64 f1e6) else none)
    (sampleRequest f2e6 "USD" "cp-456" "Test Corp") f1e6 rfl rfl
  ⟨h.1.2 (by decide), h.2.2⟩

/-- C5: for a `COUNTERPARTY_CHECK` rule, `applyRule` gives `FAILED` with the
message `Counterparty ID is required` when the counterparty id is empty,
whatever the name; `FAILED` with `Counterparty name is required` when the id
is not empty and the name is; and `PASSED` when neither is empty. -/
theorem applyRule_counterparty_cases (rt : Runtime) (t : Nat) (rule : ValidationRule)
    (request : ValidationRequest) (htype : rule.Typ = "COUNTERPARTY_CHECK") :
    (request.Counterparty.ID = "" →
        (applyRule rt t rule request).Status = "FAILED"
          ∧ (applyRule rt t rule request).Message = "Counterparty ID is required")
      ∧ (request.Counterparty.ID ≠ "" → request.Counterparty.Name = "" →
        (applyRule rt t rule request).Status = "FAILED"
          ∧ (applyRule rt t rule request).Message = "Counterparty name is required")
      ∧ (request.Counterparty.ID ≠ "" → request.Counterparty.Name ≠ "" →
        (applyRule rt t rule request).Status = "PASSED") := by
  refine ⟨fun hid => ?_, fun hid hname => ?_, fun hid hname => ?_⟩
  · simp [applyRule, htype, validateCounterparty, hid]
  · simp [applyRule, htype, validateCounterparty, hid, hname]
  · simp [applyRule, htype, validateCounterparty, hid, hname]

/-- With both the id and the name empty the message is the one about the id;
with only the name empty it is the one about the name; with neither empty the
rule passes. -/
theorem applyRule_counterparty_cases_witness :
    (applyRule sampleRuntime 0 (sampleRule "COUNTERPARTY_CHECK" fun _ => none)
        (sampleRequest f1000 "USD" "" "")).Message = "Counterparty ID is required"
      ∧ (applyRule sampleRuntime 0 (sampleRule "COUNTERPARTY_CHECK" fun _ => none)
        (sampleRequest f1000 "USD" "cp-123" "")).Message = "Counterparty name is required"
      ∧ (applyRule sampleRuntime 0 (sampleRule "COUNTERPARTY_CHECK" fun _ => none)
        (sampleRequest f1000 "USD" "cp-123" "Test Corp")).Status = "PASSED" :=
  ⟨((applyRule_counterparty_cases sampleRuntime 0
      (sampleRule "COUNTERPARTY_CHECK" fun _ => none)
      (sampleRequest f1000 "USD" "" "") rfl).1 rfl).2,
   ((applyRule_counterparty_cases sampleRuntime 0
      (sampleRule "COUNTERPARTY_CHECK" fun _ => none)
      (sampleRequest f1000 "USD" "cp-123" "") rfl).2.1 (by decide) rfl).2,
   (applyRule_counterparty_cases sampleRuntime 0
      (sampleRule "COUNTERPARTY_CHECK" fun _ => none)
      (sampleRequest f1000 "USD" "cp-123" "Test Corp") rfl).2.2 (by decide) (by decide)⟩

/-- C6: for a rule whose type is none of `AMOUNT_LIMIT`, `CURRENCY_CHECK`,
`COUNTERPARTY_CHECK`, `applyRule` gives status `SKIPPED` and the message
`Unknown rule type: ` followed by the type, which therefore contains the type;
and for every catalog and request `ValidateTransaction` gives the same `Status`
and `ErrorCode` as on the catalog with the rules of unknown type removed. -/
theorem applyRule_unknown_skipped_no_effect (rt : Runtime) (t : Nat)
    (rule : ValidationRule) (request : ValidationRequest) (s : ValidationService)
    (h1 : rule.Typ ≠ "AMOUNT_LIMIT") (h2 : rule.Typ ≠ "CURRENCY_CHECK")
    (h3 : rule.Typ ≠ "COUNTERPARTY_CHECK") :
    (applyRule rt t rule request).Status = "SKIPPED"
      ∧ (applyRule rt t rule request).Message = "Unknown rule type: " ++ rule.Typ
      ∧ (∃ before after : String,
          (applyRule rt t rule request).Message = before ++ rule.Typ ++ after)
      ∧ ∃ res res',
          s.ValidateTransaction rt request = Except.ok res
            ∧ s.dropUnknown.ValidateTransaction rt request = Except.ok res'
            ∧ res.Status = res'.Status
            ∧ res.ErrorCode = res'.ErrorCode := by
  rw [applyRule_unknown rt t rule request h1 h2 h3]
  refine ⟨rfl, rfl, ⟨"Unknown rule type: ", "", by simp⟩, ?_⟩
  obtain ⟨res, hres, -, hstatus, hcode, -⟩ := validateTransaction_eq rt s request
  obtain ⟨res', hres', -, hstatus', hcode', -⟩ :=
    validateTransaction_eq rt s.dropUnknown request
  refine ⟨res, res', hres, hres', ?_, ?_⟩
  · rw [hstatus, hstatus', anyFailed_dropUnknown]
  · rw [hcode, hcode', anyFailed_dropUnknown]

/-- A rule of type `GEO_CHECK` is skipped with a message naming that type. -/
theorem applyRule_unknown_skipped_no_effect_witness :
    (applyRule sampleRuntime 0 (sampleRule "GEO_CHECK" fun _ => none)
        (sampleRequest f1000 "USD" "" "")).Status = "SKIPPED"
      ∧ (applyRule sampleRuntime 0 (sampleRule "GEO_CHECK" fun _ => none)
        (sampleRequest f1000 "USD" "" "")).Message = "Unknown rule type: GEO_CHECK" :=
  have h := applyRule_unknown_skipped_no_effect sampleRuntime 0
    (sampleRule "GEO_CHECK" fun _ => none) (sampleRequest f1000 "USD" "" "")
    { rules := [sampleRule "GEO_CHECK" fun _ => none] }
    (by decide) (by decide) (by decide)
  ⟨h.1, h.2.1⟩

/-- C7: an `AMOUNT_LIMIT` rule whose config holds no `float64` under
`max_amount` (the key is absent, or its value has another dynamic type) gives
the same rule result, status and message included, as the same rule with
`max_amount` set to 1000000.0; a `CURRENCY_CHECK` rule whose config holds no
`[]string` under `allowed_currencies` gives the same rule result as the same
rule with `allowed_currencies` set to `[USD, EUR, GBP, JPY]`. -/
theorem applyRule_malformed_config_default (rt : Runtime) (t : Nat)
    (request : ValidationRequest) (amountRule currencyRule : ValidationRule)
    (hA : amountRule.Typ = "AMOUNT_LIMIT")
    (hAc : ∀ f : Float64, amountRule.Config "max_amount" ≠ some (Value.float64 f))
    (hC : currencyRule.Typ = "CURRENCY_CHECK")
    (hCc : ∀ xs : List String,
      currencyRule.Config "allowed_currencies" ≠ some (Value.strings xs)) :
    applyRule rt t amountRule request
        = applyRule rt t (amountRule.setConfig "max_amount" (Value.float64 f1e6)) request
      ∧ applyRule rt t currencyRule request
        = applyRule rt t
            (currencyRule.setConfig "allowed_currencies"
              (Value.strings ["USD", "EUR", "GBP", "JPY"])) request := by
  have hA1 : amountRule.Config.assertFloat64 "max_amount" = none := by
    unfold GoMap.assertFloat64
    split
    · rename_i f hf
      exact absurd hf (hAc f)
    · rfl
  have hC1 : currencyRule.Config.assertStrings "allowed_currencies" = none := by
    unfold GoMap.assertStrings
    split
    · rename_i xs hxs
      exact absurd hxs (hCc xs)
    · rfl
  have hne : currencyRule.Typ ≠ "AMOUNT_LIMIT" := by rw [hC]; decide
  constructor
  · simp [applyRule, ValidationRule.setConfig, hA, validateAmountLimit, hA1,
      GoMap.assertFloat64, f1e6]
  · simp [applyRule, ValidationRule.setConfig, hC, validateCurrency, hC1,
      GoMap.assertStrings]

/-- A string under `max_amount` and a string under `allowed_currencies` are
replaced by the defaults: the amount 1000.0 passes a rule configured with the
string `500`, and the currency `CAD` fails a rule configured with the string
`CAD`. -/
theorem applyRule_malformed_config_default_witness :
    (applyRule sampleRuntime 0
        (sampleRule "AMOUNT_LIMIT" fun k =>
          if k = "max_amount" then some (Value.string "500") else none)
        (sampleRequest f1000 "CAD" "cp-123" "Test Corp")).Status = "PASSED"
      ∧ (applyRule sampleRuntime 0
        (sampleRule "CURRENCY_CHECK" fun k =>
          if k = "allowed_currencies" then some (Value.string "CAD") else none)
        (sampleRequest f1000 "CAD" "cp-123" "Test Corp")).Status = "FAILED" :=
  have h := applyRule_malformed_config_default sampleRuntime 0
    (sampleRequest f1000 "CAD" "cp-123" "Test Corp")
    (sampleRule "AMOUNT_LIMIT" fun k =>
      if k = "max_amount" then some (Value.string "500") else none)
    (sampleRule "CURRENCY_CHECK" fun k =>
      if k = "allowed_currencies" then some (Value.string "CAD") else none)
    rfl (fun f hf => by simp [sampleRule] at hf) rfl
    (fun xs hxs => by simp [sampleRule] at hxs)
  ⟨by rw [h.1]; decide, by rw [h.2]; decide⟩

/-- C8: for every catalog and request, the result of `ValidateTransaction`
either has `Status` `FAILED`, `ErrorCode` `VALIDATION_FAILED` and the fixed,
non-empty `ErrorMessage`, or has `Status` `PASSED` and both `ErrorCode` and
`ErrorMessage` empty; so the code and the message are set exactly when the
status is `FAILED`. -/
theorem validateTransaction_error_fields (rt : Runtime) (s : ValidationService)
    (request : ValidationRequest) :
    ∃ res, s.ValidateTransaction rt request = Except.ok res
      ∧ ((res.Status = ValidationStatusFailed ∧ res.ErrorCode = "VALIDATION_FAILED"
            ∧ res.ErrorMessage = "One or more validation rules failed")
          ∨ (res.Status = ValidationStatusPassed ∧ res.ErrorCode = ""
            ∧ res.ErrorMessage = ""))
      ∧ (res.ErrorCode = "VALIDATION_FAILED" ↔ res.Status = ValidationStatusFailed)
      ∧ (res.ErrorMessage = "One or more validation rules failed"
          ↔ res.Status = ValidationStatusFailed)
      ∧ "One or more validation rules failed" ≠ "" := by
  obtain ⟨res, hres, -, hstatus, hcode, hmsg, -⟩ := validateTransaction_eq rt s request
  refine ⟨res, hres, ?_⟩
  rw [hstatus, hcode, hmsg]
  by_cases h : anyFailed (loopResults rt request 2 s.rules) = true
  · simp only [h, if_true]
    decide
  · simp only [h, if_false]
    decide

/-- C9: with the catalog built by `NewValidationService`, for every request
`ValidateTransaction` returns exactly three rule results, for `amount-limit`,
`currency-check` and `counterparty-check` in this order; the first is `FAILED`
exactly when `request.Amount > 1000000.0`, the second exactly when
`request.Currency` is none of `USD`, `EUR`, `GBP`, `JPY`, the third exactly
when the counterparty id or name is empty, and the overall `Status` is `FAILED`
exactly when one of these conditions holds. For the amount 1000.0, the currency
`XYZ` and a complete counterparty the three statuses are `PASSED`, `FAILED`,
`PASSED`. -/
theorem default_catalog_verdict (rt0 rt : Runtime) (request : ValidationRequest) :
    (∃ res r1 r2 r3,
      (NewValidationService rt0).ValidateTransaction rt request = Except.ok res
        ∧ res.Rules = [r1, r2, r3]
        ∧ r1.RuleID = "amount-limit" ∧ r2.RuleID = "currency-check"
        ∧ r3.RuleID = "counterparty-check"
        ∧ (r1.Status = "FAILED" ↔ request.Amount.gt f1e6 = true)
        ∧ (r2.Status = "FAILED" ↔ request.Currency ∉ ["USD", "EUR", "GBP", "JPY"])
        ∧ (r3.Status = "FAILED"
            ↔ request.Counterparty.ID = "" ∨ request.Counterparty.Name = "")
        ∧ (res.Status = ValidationStatusFailed
            ↔ request.Amount.gt f1e6 = true
              ∨ request.Currency ∉ ["USD", "EUR", "GBP", "JPY"]
              ∨ request.Counterparty.ID = "" ∨ request.Counterparty.Name = ""))
      ∧ ∃ res,
          (NewValidationService rt0).ValidateTransaction rt
              (sampleRequest f1000 "XYZ" "cp-789" "Test Corp") = Except.ok res
            ∧ res.Rules.map (fun r => (r.RuleID, r.Status))
                = [("amount-limit", "PASSED"), ("currency-check", "FAILED"),
                   ("counterparty-check", "PASSED")]
            ∧ res.Status = ValidationStatusFailed := by
  have key : ∀ req : ValidationRequest, ∃ res r1 r2 r3,
      (NewValidationService rt0).ValidateTransaction rt req = Except.ok res
        ∧ res.Rules = [r1, r2, r3]
        ∧ r1.RuleID = "amount-limit" ∧ r2.RuleID = "currency-check"
        ∧ r3.RuleID = "counterparty-check"
        ∧ r1.Status = (if req.Amount.gt f1e6 = true then "FAILED" else "PASSED")
        ∧ r2.Status
            = (if req.Currency ∈ ["USD", "EUR", "GBP", "JPY"] then "PASSED" else "FAILED")
        ∧ r3.Status
            = (if req.Counterparty.ID = "" ∨ req.Counterparty.Name = ""
                then "FAILED" else "PASSED")
        ∧ (res.Status = ValidationStatusFailed
            ↔ r1.Status = "FAILED" ∨ r2.Status = "FAILED" ∨ r3.Status = "FAILED") := by
    intro req
    obtain ⟨res, hres, hrules, hstatus, -⟩ :=
      validateTransaction_eq rt (NewValidationService rt0) req
    obtain ⟨a, b, c, hcat, ⟨haid, hatyp, haen, hacfg⟩, ⟨hbid, hbtyp, hben, hbcfg⟩,
      ⟨hcid, hctyp, hcen⟩⟩ := getDefaultValidationRules_eq rt0
    have hl : loopResults rt req 2 (NewValidationService rt0).rules
        = [applyRule rt 2 a req, applyRule rt 3 b req, applyRule rt 4 c req] := by
      have hr : (NewValidationService rt0).rules = [a, b, c] := hcat
      rw [hr]
      simp [loopResults, haen, hben, hcen]
    refine ⟨res, applyRule rt 2 a req, applyRule rt 3 b req, applyRule rt 4 c req,
      hres, by rw [hrules, hl], ?_, ?_, ?_,
      applyRule_amount_status rt 2 a req f1e6 hatyp hacfg,
      applyRule_currency_status rt 3 b req _ hbtyp hbcfg,
      applyRule_counterparty_status rt 4 c req hctyp, ?_⟩
    · rw [(applyRule_RuleID rt 2 a req).1, haid]
    · rw [(applyRule_RuleID rt 3 b req).1, hbid]
    · rw [(applyRule_RuleID rt 4 c req).1, hcid]
    · rw [hstatus, hl]
      by_cases h : anyFailed [applyRule rt 2 a req, applyRule rt 3 b req,
          applyRule rt 4 c req] = true
      · simp only [h, if_true, true_iff]
        simpa [anyFailed] using h
      · simp only [h, if_false]
        have h2 : ¬ ((applyRule rt 2 a req).Status = "FAILED"
            ∨ (applyRule rt 3 b req).Status = "FAILED"
            ∨ (applyRule rt 4 c req).Status = "FAILED") := by
          simpa [anyFailed] using h
        simp [h2, ValidationStatusPassed, ValidationStatusFailed]
  constructor
  · obtain ⟨res, r1, r2, r3, hres, hrules, h1, h2, h3, hs1, hs2, hs3, hst⟩ := key request
    refine ⟨res, r1, r2, r3, hres, hrules, h1, h2, h3, ?_, ?_, ?_, ?_⟩
    · rw [hs1]; split_ifs with h <;> simp [h]
    · rw [hs2]; split_ifs with h <;> simp [h]
    · rw [hs3]; split_ifs with h <;> simp [h]
    · rw [hst, hs1, hs2, hs3]
      by_cases ha : request.Amount.gt f1e6 = true <;>
        by_cases hb : request.Currency ∈ ["USD", "EUR", "GBP", "JPY"] <;>
        by_cases hc : request.Counterparty.ID = "" ∨ request.Counterparty.Name = "" <;>
        simp [ha, hb, hc, or_assoc]
  · obtain ⟨res, r1, r2, r3, hres, hrules, h1, h2, h3, hs1, hs2, hs3, hst⟩ :=
      key (sampleRequest f1000 "XYZ" "cp-789" "Test Corp")
    have e1 : r1.Status = "PASSED" := by rw [hs1]; decide
    have e2 : r2.Status = "FAILED" := by rw [hs2]; decide
    have e3 : r3.Status = "PASSED" := by rw [hs3]; decide
    refine ⟨res, hres, ?_, hst.2 (Or.inr (Or.inl e2))⟩
    simp [hrules, h1, h2, h3, e1, e2, e3]

/-- C10, as stated, fails: the service method `GetValidationResult` returns a
result and no error for the empty id and for an id of three blanks, and the
handler answers the id of three blanks with 200 and a result. -/
theorem getValidationResult_blank_id_succeeds :
    (∃ res, (NewValidationService sampleRuntime).GetValidationResult sampleRuntime ""
        = Except.ok res ∧ res.ID = "")
      ∧ (∃ res, (NewValidationService sampleRuntime).GetValidationResult sampleRuntime "   "
        = Except.ok res ∧ res.ID = "   ")
      ∧ ((ValidationHandler.mk (NewValidationService sampleRuntime)).GetValidationResult
          sampleRuntime "   ").code = StatusOK
      ∧ ∃ res, ((ValidationHandler.mk (NewValidationService sampleRuntime)).GetValidationResult
          sampleRuntime "   ").body = ResponseBody.result res :=
  ⟨⟨_, rfl, rfl⟩, ⟨_, rfl, rfl⟩, by decide, ⟨_, rfl⟩⟩

/-- C10, amended: the service method `GetValidationResult` never returns an
error: for every id, empty and blank ones included, it returns a result. The
handler answers the empty id with 400 and an error body, and every other id,
blank ones included, with 200 and the result of the service; it never answers
404. -/
theorem getValidationResult_never_fails (rt : Runtime) (s : ValidationService)
    (id : String) :
    (∃ res, s.GetValidationResult rt id = Except.ok res)
      ∧ (∀ err, s.GetValidationResult rt id ≠ Except.error err)
      ∧ (((ValidationHandler.mk s).GetValidationResult rt id).code = StatusBadRequest
            ∧ id = ""
            ∧ (∃ msg details, ((ValidationHandler.mk s).GetValidationResult rt id).body
                = ResponseBody.failure msg details)
          ∨ ((ValidationHandler.mk s).GetValidationResult rt id).code = StatusOK
            ∧ id ≠ ""
            ∧ ∃ res, s.GetValidationResult rt id = Except.ok res
                ∧ ((ValidationHandler.mk s).GetValidationResult rt id).body
                  = ResponseBody.result res)
      ∧ ((ValidationHandler.mk s).GetValidationResult rt id).code ≠ StatusNotFound := by
  refine ⟨⟨_, rfl⟩, fun err h => ?_, ?_, ?_⟩
  · simp [ValidationService.GetValidationResult] at h
  · by_cases hid : id = ""
    · left
      refine ⟨?_, hid, "Validation ID is required", none, ?_⟩ <;>
        simp [ValidationHandler.GetValidationResult, hid]
    · right
      refine ⟨?_, hid, _, rfl, ?_⟩ <;>
        simp [ValidationHandler.GetValidationResult, hid,
          ValidationService.GetValidationResult]
  · by_cases hid : id = "" <;>
      simp [ValidationHandler.GetValidationResult, hid,
        ValidationService.GetValidationResult, StatusOK, StatusBadRequest, StatusNotFound]

/-- C11: for every id, and so for every non-blank one, the service method
`GetValidationResult` returns, without error, a result whose `ID` is the
requested id and whose `Status` is `PASSED`; for every non-empty id the handler
answers 200 with that result. -/
theorem getValidationResult_echoes_id (rt : Runtime) (s : ValidationService)
    (id : String) :
    ∃ res, s.GetValidationResult rt id = Except.ok res
      ∧ res.ID = id
      ∧ res.Status = ValidationStatusPassed
      ∧ (id = ""
          ∨ ((ValidationHandler.mk s).GetValidationResult rt id).code = StatusOK
            ∧ ((ValidationHandler.mk s).GetValidationResult rt id).body
              = ResponseBody.result res) := by
  refine ⟨_, rfl, rfl, rfl, ?_⟩
  by_cases hid : id = ""
  · exact Or.inl hid
  · right
    constructor <;>
      simp [ValidationHandler.GetValidationResult, hid,
        ValidationService.GetValidationResult]

/-- C12: for every catalog and every request, `ValidateTransaction` returns a
result and no error, and the `TransactionID` of the result is that of the
request; so it does on the default catalog for a request with the amount -1.0
and an empty currency. -/
theorem validateTransaction_never_fails (rt : Runtime) (s : ValidationService)
    (request : ValidationRequest) :
    (∃ res, s.ValidateTransaction rt request = Except.ok res
        ∧ res.TransactionID = request.TransactionID)
      ∧ (∀ err, s.ValidateTransaction rt request ≠ Except.error err)
      ∧ ∃ res, (NewValidationService rt).ValidateTransaction rt
            (sampleRequest fNegOne "" "cp-123" "Test Corp") = Except.ok res
          ∧ res.TransactionID = "test-txn-123" := by
  obtain ⟨res, hres, -, -, -, -, htx⟩ := validateTransaction_eq rt s request
  obtain ⟨res', hres', -, -, -, -, htx'⟩ := validateTransaction_eq rt
    (NewValidationService rt) (sampleRequest fNegOne "" "cp-123" "Test Corp")
  refine ⟨⟨res, hres, htx⟩, fun err h => ?_, res', hres', htx'⟩
  rw [hres] at h
  exact Except.noConfusion h

/-- C13: two catalogs with the same enabled rules in the same order, whatever
disabled rules stand between them, give the same verdict for every request:
the same `Status`, `ErrorCode`, `ErrorMessage` and, timestamps cleared, the
same rule results; in particular a catalog and the catalog with its disabled
rules removed do. The two calls may read different clocks. -/
theorem disabled_rules_no_influence (rt1 rt2 : Runtime) (s s' : ValidationService)
    (request : ValidationRequest) (hfmt : rt1.sprintf2f = rt2.sprintf2f)
    (hsame : (s'.rules.filter fun r => r.Enabled) = s.rules.filter fun r => r.Enabled) :
    sameVerdict (s.ValidateTransaction rt1 request)
        ((ValidationService.mk (s.rules.filter fun r => r.Enabled)).ValidateTransaction
          rt2 request) = true
      ∧ sameVerdict (s.ValidateTransaction rt1 request)
          (s'.ValidateTransaction rt2 request) = true := by
  have hclock : ∀ rules : List ValidationRule,
      (loopResults rt1 request 2 rules).map RuleResult.clearTime
        = (loopResults rt2 request 2 rules).map RuleResult.clearTime := fun rules =>
    loopResults_clearTime_congr rt1 rt2 request request hfmt rfl rfl rfl rfl rules 2 2
  constructor
  · apply sameVerdict_of_loopResults
    rw [hclock, loopResults_filter]
  · apply sameVerdict_of_loopResults
    rw [hclock, ← loopResults_filter rt2 request s.rules, ← hsame, loopResults_filter]

/-- A disabled amount rule that the request would fail and a disabled rule of
unknown type, put around an enabled currency rule, change nothing. -/
theorem disabled_rules_no_influence_witness :
    sameVerdict
        ((ValidationService.mk
          [sampleRule "CURRENCY_CHECK" fun _ => none]).ValidateTransaction
            sampleRuntime (sampleRequest f2e6 "USD" "cp-123" "Test Corp"))
        ((ValidationService.mk
          [{ sampleRule "AMOUNT_LIMIT" (fun _ => none) with Enabled := false },
           sampleRule "CURRENCY_CHECK" fun _ => none,
           { sampleRule "GEO_CHECK" (fun _ => none) with Enabled := false }]).ValidateTransaction
            laterRuntime (sampleRequest f2e6 "USD" "cp-123" "Test Corp")) = true :=
  (disabled_rules_no_influence sampleRuntime laterRuntime
    (ValidationService.mk [sampleRule "CURRENCY_CHECK" fun _ => none])
    (ValidationService.mk
      [{ sampleRule "AMOUNT_LIMIT" (fun _ => none) with Enabled := false },
       sampleRule "CURRENCY_CHECK" fun _ => none,
       { sampleRule "GEO_CHECK" (fun _ => none) with Enabled := false }])
    (sampleRequest f2e6 "USD" "cp-123" "Test Corp") rfl rfl).2

/-- C14: for every two catalogs `c1`, `c2` and every request, the `Status` of
`ValidateTransaction` on `c1 ++ c2` is `FAILED` if and only if it is `FAILED`
on `c1` alone or on `c2` alone; so a failing currency rule followed by a
passing counterparty rule gives `FAILED`. -/
theorem validateTransaction_status_append (rt : Runtime) (c1 c2 : List ValidationRule)
    (request : ValidationRequest) :
    (∃ res res1 res2,
      (ValidationService.mk (c1 ++ c2)).ValidateTransaction rt request = Except.ok res
        ∧ (ValidationService.mk c1).ValidateTransaction rt request = Except.ok res1
        ∧ (ValidationService.mk c2).ValidateTransaction rt request = Except.ok res2
        ∧ (res.Status = ValidationStatusFailed
            ↔ res1.Status = ValidationStatusFailed ∨ res2.Status = ValidationStatusFailed))
      ∧ ∃ res,
          (ValidationService.mk
            ([sampleRule "CURRENCY_CHECK" fun _ => none]
              ++ [sampleRule "COUNTERPARTY_CHECK" fun _ => none])).ValidateTransaction rt
              (sampleRequest f1000 "XYZ" "cp-123" "Test Corp") = Except.ok res
            ∧ res.Rules.map (fun r => r.Status) = ["FAILED", "PASSED"]
            ∧ res.Status = ValidationStatusFailed := by
  constructor
  · obtain ⟨res, hres, -, hstatus, -⟩ :=
      validateTransaction_eq rt (ValidationService.mk (c1 ++ c2)) request
    obtain ⟨res1, hres1, -, hstatus1, -⟩ :=
      validateTransaction_eq rt (ValidationService.mk c1) request
    obtain ⟨res2, hres2, -, hstatus2, -⟩ :=
      validateTransaction_eq rt (ValidationService.mk c2) request
    refine ⟨res, res1, res2, hres, hres1, hres2, ?_⟩
    rw [hstatus, hstatus1, hstatus2]
    simp only [loopResults_append, anyFailed_append]
    rw [anyFailed_loopResults_tick rt request c2 _ 2]
    by_cases h1 : anyFailed (loopResults rt request 2 c1) = true <;>
      by_cases h2 : anyFailed (loopResults rt request 2 c2) = true <;>
      simp [h1, h2, ValidationStatusPassed, ValidationStatusFailed]
  · exact ⟨_, rfl, rfl, rfl⟩

/-- C15: for every catalog, two requests with the same `Amount`, `Currency`,
`Counterparty.ID` and `Counterparty.Name` get the same `Status`, the same
`ErrorCode` and `ErrorMessage`, and rule results with the same ids, names,
statuses and messages, whatever their other fields are and whatever clocks the
two calls read. -/
theorem verdict_depends_only_on_checked_fields (rt1 rt2 : Runtime) (s : ValidationService)
    (req1 req2 : ValidationRequest) (hfmt : rt1.sprintf2f = rt2.sprintf2f)
    (hamount : req1.Amount = req2.Amount) (hcurrency : req1.Currency = req2.Currency)
    (hid : req1.Counterparty.ID = req2.Counterparty.ID)
    (hname : req1.Counterparty.Name = req2.Counterparty.Name) :
    ∃ res1 res2,
      s.ValidateTransaction rt1 req1 = Except.ok res1
        ∧ s.ValidateTransaction rt2 req2 = Except.ok res2
        ∧ res1.Status = res2.Status
        ∧ res1.ErrorCode = res2.ErrorCode
        ∧ res1.ErrorMessage = res2.ErrorMessage
        ∧ res1.Rules.map (fun r => (r.RuleID, r.RuleName, r.Status, r.Message))
            = res2.Rules.map (fun r => (r.RuleID, r.RuleName, r.Status, r.Message)) := by
  obtain ⟨res1, hres1, hrules1, hstatus1, hcode1, hmsg1, -⟩ :=
    validateTransaction_eq rt1 s req1
  obtain ⟨res2, hres2, hrules2, hstatus2, hcode2, hmsg2, -⟩ :=
    validateTransaction_eq rt2 s req2
  have h := loopResults_clearTime_congr rt1 rt2 req1 req2 hfmt hamount hcurrency hid hname
    s.rules 2 2
  have hany : anyFailed (loopResults rt1 req1 2 s.rules)
      = anyFailed (loopResults rt2 req2 2 s.rules) := by
    rw [← anyFailed_map_clearTime, h, anyFailed_map_clearTime]
  refine ⟨res1, res2, hres1, hres2, ?_, ?_, ?_, ?_⟩
  · rw [hstatus1, hstatus2, hany]
  · rw [hcode1, hcode2, hany]
  · rw [hmsg1, hmsg2, hany]
  · rw [hrules1, hrules2]
    have h2 := congrArg
      (List.map fun r : RuleResult => (r.RuleID, r.RuleName, r.Status, r.Message)) h
    simpa [List.map_map, Function.comp_def, RuleResult.clearTime] using h2

/-- Two requests that differ in transaction id, type, counterparty type,
metadata and timestamp, and agree on the four fields read, get the same
verdict from the default catalog. -/
theorem verdict_depends_only_on_checked_fields_witness :
    ∃ res1 res2,
      (NewValidationService sampleRuntime).ValidateTransaction sampleRuntime
          (sampleRequest f1000 "XYZ" "cp-123" "Test Corp") = Except.ok res1
        ∧ (NewValidationService sampleRuntime).ValidateTransaction laterRuntime
          { TransactionID := "other-txn", Typ := "REFUND", Amount := f1000,
            Currency := "XYZ",
            Counterparty := { ID := "cp-123", Name := "Test Corp", Typ := "PERSON" },
            Metadata := fun k => if k = "note" then some (Value.bool true) else none,
            Timestamp := 77 } = Except.ok res2
        ∧ res1.Status = res2.Status
        ∧ res1.ErrorCode = res2.ErrorCode
        ∧ res1.ErrorMessage = res2.ErrorMessage
        ∧ res1.Rules.map (fun r => (r.RuleID, r.RuleName, r.Status, r.Message))
            = res2.Rules.map (fun r => (r.RuleID, r.RuleName, r.Status, r.Message)) :=
  verdict_depends_only_on_checked_fields sampleRuntime laterRuntime
    (NewValidationService sampleRuntime)
    (sampleRequest f1000 "XYZ" "cp-123" "Test Corp")
    { TransactionID := "other-txn", Typ := "REFUND", Amount := f1000,
      Currency := "XYZ",
      Counterparty := { ID := "cp-123", Name := "Test Corp", Typ := "PERSON" },
      Metadata := fun k => if k = "note" then some (Value.bool true) else none,
      Timestamp := 77 }
    rfl rfl rfl rfl rfl

end ValidationSvc
